import Mathlib

/-!
Verification of the Xray-core outbound dispatch layer and SOCKS protocol
engine, shallowly embedded from the Go source:
  - `app/proxyman/outbound/handler.go` (outbound handler: NewHandler, Dispatch)
  - the SOCKS server/client handshake engine and UDP relay codec
  - `proxy/http/config.go` and the HTTP server config builder

Byte streams are modelled as `List Nat` (each entry one byte), buffered
writes as lists of frames, and Go errors as `Except`/`Option` values.
-/

deriving instance DecidableEq for Except

namespace XraySpec

/-- A byte stream: the sequence of bytes a reader will deliver. -/
abbrev ByteStream := List Nat

/-- `ReadFullFrom(reader, n)`: take exactly `n` bytes from the stream or fail. -/
def readN (n : Nat) (s : ByteStream) : Option (List Nat × ByteStream) :=
  if n ≤ s.length then some (s.take n, s.drop n) else none

/-- Read a single byte from the stream. -/
def readByte : ByteStream → Option (Nat × ByteStream)
  | [] => none
  | b :: rest => some (b, rest)

/-- First-match association lookup, modelling a Go map read
(Go maps hold each key at most once, so first-match is exact). -/
def assocLookup {α β : Type} [DecidableEq α] : List (α × β) → α → Option β
  | [], _ => none
  | (k, v) :: rest, key => if k = key then some v else assocLookup rest key

/-- Network addresses as they appear in the SOCKS wire protocol:
`net.Address` restricted to the three families the address codec handles. -/
inductive Address
  | ipv4 (bytes : List Nat)
  | ipv6 (bytes : List Nat)
  | domain (bytes : List Nat)
deriving DecidableEq, Repr

/-- `net.AnyIP` (0.0.0.0) as raw IPv4 bytes. -/
def anyIP : List Nat := [0, 0, 0, 0]

/-- Big-endian 16-bit port serialization (`binary.BigEndian.PutUint16`). -/
def portBytes (port : Nat) : List Nat := [port / 256 % 256, port % 256]

/-- Big-endian 16-bit port parse (`net.PortFromBytes`). -/
def portFromBytes (hi lo : Nat) : Nat := hi * 256 + lo

/-- Modelled from the spec: the shared SOCKS address codec
(`protocol.NewAddressParser` with family bytes 0x01 IPv4, 0x04 IPv6,
0x03 domain; `common/protocol` is not part of the given sources).
`WriteAddressPort` writes the family byte, the address body (a one-byte
length prefix for domains), then the 2-byte big-endian port. -/
def writeAddressPort (addr : Address) (port : Nat) : List Nat :=
  (match addr with
   | .ipv4 bs => 0x01 :: bs
   | .ipv6 bs => 0x04 :: bs
   | .domain bs => 0x03 :: (bs.length % 256) :: bs)
  ++ portBytes port

/-- Modelled from the spec: `ReadAddressPort` of the shared SOCKS address
codec — family byte, address body, then 2-byte big-endian port; returns
the parsed address, port, and the unconsumed remainder of the stream. -/
def readAddressPort (s : ByteStream) : Option (Address × Nat × ByteStream) :=
  match s with
  | [] => none
  | atyp :: rest =>
    if atyp = 0x01 then
      match readN 4 rest with
      | none => none
      | some (bs, rest) =>
        match rest with
        | hi :: lo :: rest => some (.ipv4 bs, portFromBytes hi lo, rest)
        | _ => none
    else if atyp = 0x04 then
      match readN 16 rest with
      | none => none
      | some (bs, rest) =>
        match rest with
        | hi :: lo :: rest => some (.ipv6 bs, portFromBytes hi lo, rest)
        | _ => none
    else if atyp = 0x03 then
      match rest with
      | [] => none
      | len :: rest =>
        match readN len rest with
        | none => none
        | some (bs, rest) =>
          match rest with
          | hi :: lo :: rest => some (.domain bs, portFromBytes hi lo, rest)
          | _ => none
    else none

/-- `protocol.MemoryUser`: only the `Email` field is set by the SOCKS engine. -/
structure MemoryUser where
  email : List Nat
deriving DecidableEq, Repr

/-- `protocol.RequestCommand` values used by the SOCKS engine. -/
inductive RequestCommand
  | tcp
  | udp
deriving DecidableEq, Repr

/-- `protocol.RequestHeader` restricted to the fields the SOCKS engine
reads or writes: Version, Command, Address, Port, User. -/
structure RequestHeader where
  version : Nat
  command : RequestCommand
  address : Address
  port : Nat
  user : Option MemoryUser
deriving DecidableEq, Repr

/-! ### UDP relay codec (`DecodeUDPPacket` / `EncodeUDPPacket`) -/

/-- `socks5Version` constant (0x05). -/
def socks5Version : Nat := 0x05

/-- `socks4Version` constant (0x04). -/
def socks4Version : Nat := 0x04

/-- `EncodeUDPPacket`: 3-byte zero prefix (reserved + fragment), then
address and port via the shared codec, then the payload verbatim. -/
def EncodeUDPPacket (request : RequestHeader) (data : List Nat) : List Nat :=
  [0, 0, 0] ++ writeAddressPort request.address request.port ++ data

/-- `DecodeUDPPacket`: requires ≥ 5 bytes, byte 2 (fragment) must be zero,
then advances past the 3-byte prefix and reads address+port via the shared
codec; the unconsumed remainder of the packet is the payload. -/
def DecodeUDPPacket (packet : List Nat) : Except String (RequestHeader × List Nat) :=
  if packet.length < 5 then .error "insufficient length of packet."
  else
    match packet with
    | _ :: _ :: frag :: rest =>
      if frag ≠ 0 then .error "discarding fragmented payload."
      else
        match readAddressPort rest with
        | none => .error "failed to read UDP header"
        | some (addr, port, remaining) =>
          .ok ({ version := socks5Version, command := .udp,
                 address := addr, port := port, user := none }, remaining)
    | _ => .error "insufficient length of packet."

/-- Well-formedness of an address per its family: IPv4 bodies are 4 bytes,
IPv6 bodies 16 bytes, domains at most 255 bytes (one-byte length prefix). -/
def wfAddress : Address → Prop
  | .ipv4 bs => bs.length = 4
  | .ipv6 bs => bs.length = 16
  | .domain bs => bs.length ≤ 255

instance : DecidablePred wfAddress := by
  intro a
  cases a <;> simp [wfAddress] <;> infer_instance

/-! ### SOCKS server configuration (`proxy/socks` config) -/

/-- The `AuthType` proto enum: NO_AUTH, PASSWORD, KEYAUTH. -/
inductive AuthType
  | noAuth
  | password
  | keyAuth
deriving DecidableEq, Repr

/-- `ValidKey int32 = 1`: the value a valid key maps to. -/
def ValidKey : Int := 1

/-- The SOCKS `ServerConfig` restricted to the fields the handshake engine
reads: AuthType, Accounts (username → password), Keys (key → int32),
UdpEnabled, and the configured UDP relay Address. `none` models a nil map. -/
structure SocksServerConfig where
  authType : AuthType
  accounts : Option (List (List Nat × List Nat))
  keys : Option (List (List Nat × Int))
  udpEnabled : Bool
  address : Option Address
deriving DecidableEq, Repr

/-- socks `ServerConfig.HasAccount`: nil map ⇒ false; otherwise the stored
password for the username must exist and equal the given password. -/
def SocksServerConfig.hasAccount (c : SocksServerConfig)
    (username password : List Nat) : Bool :=
  match c.accounts with
  | none => false
  | some accounts =>
    match assocLookup accounts username with
    | none => false
    | some stored => stored == password

/-- socks `ServerConfig.ValidateKey`: nil map ⇒ false; otherwise the key
must exist and map to `ValidKey` (1). -/
def SocksServerConfig.validateKey (c : SocksServerConfig) (key : List Nat) : Bool :=
  match c.keys with
  | none => false
  | some keys =>
    match assocLookup keys key with
    | none => false
    | some value => value == ValidKey

/-! ### SOCKS server handshake engine -/

/-- `socks4RequestGranted` (90) and `socks4RequestRejected` (91). -/
def socks4RequestGranted : Nat := 90

/-- SOCKS4 rejection status byte. -/
def socks4RequestRejected : Nat := 91

/-- `authNotRequired` method byte (0x00). -/
def authNotRequired : Nat := 0x00

/-- `authPassword` method byte (0x02). -/
def authPassword : Nat := 0x02

/-- `authNoMatchingMethod` reply byte (0xFF). -/
def authNoMatchingMethod : Nat := 0xFF

/-- `statusSuccess` (0x00). -/
def statusSuccess : Nat := 0x00

/-- `statusCmdNotSupport` (0x07). -/
def statusCmdNotSupport : Nat := 0x07

/-- SOCKS command bytes. -/
def cmdTCPConnect : Nat := 0x01

/-- SOCKS BIND command byte. -/
def cmdTCPBind : Nat := 0x02

/-- SOCKS UDP-ASSOCIATE command byte. -/
def cmdUDPAssociate : Nat := 0x03

/-- Tor resolve command byte. -/
def cmdTorResolve : Nat := 0xF0

/-- Tor resolve-PTR command byte. -/
def cmdTorResolvePTR : Nat := 0xF1

/-- `writeSocks4Response`: zero byte, status byte, 2-byte port, raw IP. -/
def writeSocks4Response (errCode : Nat) (ip : List Nat) (port : Nat) : List Nat :=
  [0, errCode] ++ portBytes port ++ ip

/-- `writeSocks5AuthenticationResponse`: a 2-byte {version, auth} frame. -/
def writeSocks5AuthenticationResponse (version auth : Nat) : List Nat :=
  [version, auth]

/-- `writeSocks5Response`: {version, status, reserved} then address+port. -/
def writeSocks5Response (errCode : Nat) (address : Address) (port : Nat) : List Nat :=
  [socks5Version, errCode, 0] ++ writeAddressPort address port

/-- `ReadUntilNull`: consume bytes up to the first 0x00 (excluded); failure
when the stream ends first or the 8 KiB scratch buffer would overflow. -/
def ReadUntilNull (s : ByteStream) : Option (List Nat × ByteStream) :=
  match s.findIdx? (· == 0) with
  | none => none
  | some i => if i < 8192 then some (s.take i, s.drop (i + 1)) else none

/-- Modelled from the spec: `net.ParseAddress` applied to the SOCKS4a
domain string (the spec says the second null-terminated string is "taken
as the domain"; `common/net` is not part of the given sources). -/
def parseAddress (bs : List Nat) : Address := .domain bs

/-- `ServerSession.handshake4`: reject immediately under PASSWORD auth;
otherwise read {port, IPv4}, discard the user-id string, read a domain
when the IPv4's first octet is zero (SOCKS4a), and accept only CONNECT.
Returns the frames written to the peer and either an error or the
produced `RequestHeader` with the unconsumed stream. -/
def handshake4 (cfg : SocksServerConfig) (cmd : Nat) (input : ByteStream) :
    List (List Nat) × Except String (RequestHeader × ByteStream) :=
  if cfg.authType = .password then
    ([writeSocks4Response socks4RequestRejected anyIP 0],
     .error "socks 4 is not allowed when auth is required.")
  else
    match readN 6 input with
    | none => ([], .error "insufficient header")
    | some (header6, rest) =>
      let port := portFromBytes (header6.headI) (header6.tail.headI)
      let ipBytes := header6.drop 2
      match ReadUntilNull rest with
      | none => ([], .error "failed to read user id")
      | some (_, rest) =>
        let addrRes : Option (Address × ByteStream) :=
          if ipBytes.headI = 0 then
            match ReadUntilNull rest with
            | none => none
            | some (dom, rest) => some (parseAddress dom, rest)
          else some (.ipv4 ipBytes, rest)
        match addrRes with
        | none => ([], .error "failed to read domain for socks 4a")
        | some (address, rest) =>
          if cmd = cmdTCPConnect then
            ([writeSocks4Response socks4RequestGranted anyIP 0],
             .ok ({ version := socks4Version, command := .tcp,
                    address := address, port := port, user := none }, rest))
          else
            ([writeSocks4Response socks4RequestRejected anyIP 0],
             .error "unsupported command")

/-- `ReadUsernamePassword`: {version, ulen} bytes, `ulen` username bytes,
a plen byte, `plen` password bytes. -/
def ReadUsernamePassword (s : ByteStream) :
    Option (List Nat × List Nat × ByteStream) :=
  match readByte s with
  | none => none
  | some (_, s) =>
    match readByte s with
    | none => none
    | some (nUsername, s) =>
      match readN nUsername s with
      | none => none
      | some (username, s) =>
        match readByte s with
        | none => none
        | some (nPassword, s) =>
          match readN nPassword s with
          | none => none
          | some (password, s) => some (username, password, s)

/-- `hasAuthMethod`: whether the expected method byte occurs among the
client's candidate bytes. -/
def hasAuthMethod (expectedAuth : Nat) (authCandidates : List Nat) : Bool :=
  authCandidates.any (· == expectedAuth)

/-- The single expected auth method `auth5` derives from the server
configuration: password-style (0x02) for both PASSWORD and KEYAUTH,
no-auth (0x00) otherwise. -/
def expectedAuthByte (cfg : SocksServerConfig) : Nat :=
  if cfg.authType = .password then authPassword
  else if cfg.authType = .keyAuth then authPassword
  else authNotRequired

/-- `ServerSession.auth5`: read the `nMethod` candidate bytes, pick the
expected method from configuration, reply 0xFF and fail when it is absent,
otherwise echo it; for password-style methods run the RFC 1929
sub-negotiation, validating against accounts (PASSWORD) or keys (KEYAUTH).
Returns the frames written and either an error or the authenticated
username with the unconsumed stream. -/
def auth5 (cfg : SocksServerConfig) (nMethod : Nat) (input : ByteStream) :
    List (List Nat) × Except String (List Nat × ByteStream) :=
  match readN nMethod input with
  | none => ([], .error "failed to read auth methods")
  | some (candidates, rest) =>
    let expectedAuth := expectedAuthByte cfg
    if ¬ hasAuthMethod expectedAuth candidates then
      ([writeSocks5AuthenticationResponse socks5Version authNoMatchingMethod],
       .error "no matching auth method")
    else
      let w0 := [writeSocks5AuthenticationResponse socks5Version expectedAuth]
      if expectedAuth = authPassword then
        match ReadUsernamePassword rest with
        | none =>
          (w0, .error "failed to read username and password for authentication")
        | some (username, password, rest) =>
          if cfg.authType = .password ∧ ¬ cfg.hasAccount username password then
            (w0 ++ [writeSocks5AuthenticationResponse 0x01 0xFF],
             .error "invalid username or password")
          else if cfg.authType = .keyAuth ∧ ¬ cfg.validateKey password then
            (w0 ++ [writeSocks5AuthenticationResponse 0x01 0xFF],
             .error "invalid key")
          else
            (w0 ++ [writeSocks5AuthenticationResponse 0x01 0x00],
             .ok (username, rest))
      else
        (w0, .ok ([], rest))

/-- `ServerSession` state: configuration plus the session's bound address,
port and local address, used for the echoed bind address in replies. -/
structure ServerSession where
  config : SocksServerConfig
  address : Address
  port : Nat
  localAddress : Address
deriving Repr

/-- The tail of `ServerSession.handshake5` after the command switch:
read the target address/port via the shared codec, then write the success
reply whose echoed bind address is the configured relay address (if set)
or the session's local address for UDP-ASSOCIATE, and the session's bound
address for CONNECT; the echoed port is always the session's bound port. -/
def finishRequest (s : ServerSession) (w : List (List Nat))
    (user : Option MemoryUser) (command : RequestCommand) (rest : ByteStream) :
    List (List Nat) × Except String (RequestHeader × ByteStream) :=
  match readAddressPort rest with
  | none => (w, .error "failed to read address")
  | some (addr, port, rest) =>
    let responseAddress :=
      if command = .udp then
        match s.config.address with
        | some configured => configured
        | none => s.localAddress
      else s.address
    let responsePort := s.port
    (w ++ [writeSocks5Response statusSuccess responseAddress responsePort],
     .ok ({ version := socks5Version, command := command,
            address := addr, port := port, user := user }, rest))

/-- `ServerSession.handshake5`: run `auth5`, read the 3-byte request head,
attach a user record exactly when the authenticated username is non-empty,
dispatch on the command byte (CONNECT/Tor ⇒ TCP; UDP-ASSOCIATE only when
UDP is enabled; BIND and unknown commands rejected with a
command-not-supported reply), then finish via `finishRequest`. -/
def handshake5 (s : ServerSession) (nMethod : Nat) (input : ByteStream) :
    List (List Nat) × Except String (RequestHeader × ByteStream) :=
  match auth5 s.config nMethod input with
  | (w, .error e) => (w, .error e)
  | (w, .ok (username, rest)) =>
    match readN 3 rest with
    | none => (w, .error "failed to read request")
    | some (head3, rest) =>
      let cmd := head3.tail.headI
      let user : Option MemoryUser :=
        if username ≠ [] then some { email := username } else none
      if cmd = cmdTCPConnect ∨ cmd = cmdTorResolve ∨ cmd = cmdTorResolvePTR then
        finishRequest s w user .tcp rest
      else if cmd = cmdUDPAssociate then
        if ¬ s.config.udpEnabled then
          (w ++ [writeSocks5Response statusCmdNotSupport (.ipv4 anyIP) 0],
           .error "UDP is not enabled.")
        else finishRequest s w user .udp rest
      else if cmd = cmdTCPBind then
        (w ++ [writeSocks5Response statusCmdNotSupport (.ipv4 anyIP) 0],
         .error "TCP bind is not supported.")
      else
        (w ++ [writeSocks5Response statusCmdNotSupport (.ipv4 anyIP) 0],
         .error "unknown command")

/-! ### SOCKS client handshake (`ClientHandshake`) -/

/-- A SOCKS `Account` as used by the client handshake: username/password. -/
structure SocksAccount where
  username : List Nat
  password : List Nat
deriving DecidableEq, Repr

/-- The outbound request driving a client handshake: optional credentials,
command, and target address/port. -/
structure ClientRequest where
  user : Option SocksAccount
  command : RequestCommand
  address : Address
  port : Nat
deriving Repr

/-- The distinct error exits of `ClientHandshake`, each mirroring one
`errors.New` call with exactly the values the Go error message carries
(`authMethodNotSupported` carries none: the message is the fixed string
"auth method not supported."). -/
inductive ClientErr
  | ioErr
  | unexpectedVersion (b : Nat)
  | authMethodNotSupported
  | serverRejectsAccount (b : Nat)
  | serverRejectsRequest (b : Nat)
  | addrErr
deriving DecidableEq, Repr

/-- The wire byte an error message reports, if any. -/
def ClientErr.reportedByte : ClientErr → Option Nat
  | .unexpectedVersion b => some b
  | .serverRejectsAccount b => some b
  | .serverRejectsRequest b => some b
  | _ => none

/-- The auth method byte the client offers: password when the request
carries credentials, no-auth otherwise. -/
def clientAuthByte (request : ClientRequest) : Nat :=
  match request.user with
  | some _ => authPassword
  | none => authNotRequired

/-- The client's method-negotiation frame {5, 1, authByte}. -/
def clientNegotiationFrame (request : ClientRequest) : List Nat :=
  [socks5Version, 0x01, clientAuthByte request]

/-- The client's RFC 1929 auth sub-negotiation frame. -/
def clientAuthFrame (account : SocksAccount) : List Nat :=
  [0x01, account.username.length % 256] ++ account.username
    ++ [account.password.length % 256] ++ account.password

/-- The client's request frame: {5, command, 0} then the target address
and port (a fixed zero IPv4 block for UDP-ASSOCIATE, per RFC 1928). -/
def clientRequestFrame (request : ClientRequest) : List Nat :=
  let command := if request.command = .udp then cmdUDPAssociate else cmdTCPConnect
  [socks5Version, command, 0]
    ++ (if request.command = .udp then [1, 0, 0, 0, 0, 0, 0]
        else writeAddressPort request.address request.port)

/-- `ClientHandshake`: offer one method, check the server's version and
echoed method, run the password sub-negotiation when credentials were
offered, send the request, check the reply status, and parse the bound
address (returned as a header only for UDP-ASSOCIATE). Returns the frames
written and the result. -/
def ClientHandshake (request : ClientRequest) (input : ByteStream) :
    List (List Nat) × Except ClientErr (Option RequestHeader) :=
  let w1 := [clientNegotiationFrame request]
  match readByte input with
  | none => (w1, .error .ioErr)
  | some (version, input) =>
    match readByte input with
    | none => (w1, .error .ioErr)
    | some (method, input) =>
      if version ≠ socks5Version then
        (w1, .error (.unexpectedVersion version))
      else if method ≠ clientAuthByte request then
        (w1, .error .authMethodNotSupported)
      else
        let afterAuth : List (List Nat) × Option (Except ClientErr Unit) × ByteStream :=
          match request.user with
          | none => (w1, none, input)
          | some account =>
            let w2 := w1 ++ [clientAuthFrame account]
            match readByte input with
            | none => (w2, some (.error .ioErr), input)
            | some (_, input) =>
              match readByte input with
              | none => (w2, some (.error .ioErr), input)
              | some (status, input) =>
                if status ≠ 0x00 then
                  (w2, some (.error (.serverRejectsAccount status)), input)
                else (w2, none, input)
        match afterAuth with
        | (w, some (.error e), _) => (w, .error e)
        | (w, some (.ok _), input) | (w, none, input) =>
          let w3 := w ++ [clientRequestFrame request]
          match readN 3 input with
          | none => (w3, .error .ioErr)
          | some (head3, input) =>
            let resp := head3.tail.headI
            if resp ≠ 0x00 then
              (w3, .error (.serverRejectsRequest resp))
            else
              match readAddressPort input with
              | none => (w3, .error .addrErr)
              | some (address, port, _) =>
                if request.command = .udp then
                  (w3, .ok (some { version := socks5Version, command := .udp,
                                   address := address, port := port,
                                   user := none }))
                else (w3, .ok none)

/-! ### Outbound handler: mux pool construction (`NewHandler`) -/

/-- `mux.ClientStrategy`: per-worker concurrency cap and the maximum
number of connections a worker may carry. -/
structure ClientStrategy where
  maxConcurrency : Nat
  maxConnection : Nat
deriving DecidableEq, Repr

/-- `mux.ClientManager`: enabled flag, plus the dialing strategy of its
worker picker when one was built (a disabled manager has no picker). -/
structure ClientManager where
  enabled : Bool
  strategy : Option ClientStrategy
deriving DecidableEq, Repr

/-- `proxyman.MultiplexingConfig`: enabled flag, TCP and xudp concurrency
(int32, may be negative), and the UDP/443 policy string. -/
structure MultiplexConfig where
  enabled : Bool
  concurrency : Int
  xudpConcurrency : Int
  xudpProxyUDP443 : String
deriving Repr

/-- The TCP mux pool `NewHandler` builds from `config.Concurrency`:
negative ⇒ disabled manager; zero is first rewritten to the default 8;
positive ⇒ enabled manager with that concurrency and MaxConnection 128. -/
def buildMuxPool (concurrency : Int) : Option ClientManager :=
  let pool : Option ClientManager :=
    if concurrency < 0 then some { enabled := false, strategy := none } else none
  let concurrency := if concurrency = 0 then 8 else concurrency
  if concurrency > 0 then
    some { enabled := true,
           strategy := some { maxConcurrency := concurrency.toNat,
                              maxConnection := 128 } }
  else pool

/-- The xudp pool `NewHandler` builds from `config.XudpConcurrency`:
negative ⇒ disabled manager; zero ⇒ no pool at all; positive ⇒ enabled
manager with that concurrency and MaxConnection 128. -/
def buildXudpPool (xudpConcurrency : Int) : Option ClientManager :=
  let pool : Option ClientManager :=
    if xudpConcurrency < 0 then some { enabled := false, strategy := none } else none
  let pool := if xudpConcurrency = 0 then none else pool
  if xudpConcurrency > 0 then
    some { enabled := true,
           strategy := some { maxConcurrency := xudpConcurrency.toNat,
                              maxConnection := 128 } }
  else pool

/-- The mux-related fields of a constructed `Handler`. -/
structure HandlerMuxState where
  mux : Option ClientManager
  xudp : Option ClientManager
  udp443 : String
deriving Repr

/-- The mux-pool part of `NewHandler`: pools and the UDP/443 policy are
set only when multiplex settings are present and enabled. -/
def newHandlerMuxState (settings : Option MultiplexConfig) : HandlerMuxState :=
  match settings with
  | some config =>
    if config.enabled then
      { mux := buildMuxPool config.concurrency,
        xudp := buildXudpPool config.xudpConcurrency,
        udp443 := config.xudpProxyUDP443 }
    else { mux := none, xudp := none, udp443 := "" }
  | none => { mux := none, xudp := none, udp443 := "" }

/-! ### Outbound handler: `Dispatch` -/

/-- `net.Network` restricted to the two networks Dispatch inspects. -/
inductive Network
  | tcp
  | udp
deriving DecidableEq, Repr

/-- Go errors as Dispatch classifies them: the three benign terminations
it normalizes to success, and everything else. -/
inductive GoErr
  | eof
  | closedPipe
  | ctxCanceled
  | other (msg : String)
deriving DecidableEq, Repr

/-- The observable side effects of one `Dispatch` call, in order. -/
inductive DispatchAction
  | submitOutboundError
  | logInfo
  | interruptWriter
  | closeWriter
  | interruptReader
  | xudpDispatch
  | muxDispatch
  | proxyProcess
deriving DecidableEq, Repr

/-- The `test` closure inside Dispatch: on a non-nil error it submits the
wrapped error to the originator, logs it at info level, and interrupts the
link writer; on nil it does nothing. -/
def testActions : Option GoErr → List DispatchAction
  | some _ => [.submitOutboundError, .logInfo, .interruptWriter]
  | none => []

/-- Whether a process result is clean termination: success, EOF,
closed-pipe, or context-canceled. -/
def isBenign : Option GoErr → Bool
  | none => true
  | some .eof => true
  | some .closedPipe => true
  | some .ctxCanceled => true
  | some (.other _) => false

/-- The direct (non-mux) path of Dispatch: run the proxy's Process; a
benign result closes the writer gracefully, any other error is reported,
logged, and interrupts the writer; the reader is interrupted afterwards
in both cases. -/
def directPath (processResult : Option GoErr) : List DispatchAction :=
  if isBenign processResult then
    [.proxyProcess, .closeWriter, .interruptReader]
  else
    [.proxyProcess, .submitOutboundError, .logInfo, .interruptWriter,
     .interruptReader]

/-- The TCP mux step of pool selection: dispatch into the mux pool when it
is enabled, otherwise fall through to the direct path. -/
def muxStep (manager : ClientManager)
    (muxResult processResult : Option GoErr) : List DispatchAction :=
  if manager.enabled then .muxDispatch :: testActions muxResult
  else directPath processResult

/-- Pool selection: prefer the xudp pool for UDP flows when present (a
disabled xudp pool forces the direct path); otherwise the TCP mux pool. -/
def poolSelect (manager : ClientManager) (xudp : Option ClientManager)
    (network : Network) (xudpResult muxResult processResult : Option GoErr) :
    List DispatchAction :=
  match xudp with
  | some xudpManager =>
    if network = .udp then
      if ¬ xudpManager.enabled then directPath processResult
      else .xudpDispatch :: testActions xudpResult
    else muxStep manager muxResult processResult
  | none => muxStep manager muxResult processResult

/-- `Handler.Dispatch` as the ordered list of its observable actions,
with the results of the external calls (xudp dispatch, mux dispatch,
proxy Process) supplied as oracles. The UDP/443 policy is evaluated only
when a mux pool is configured. -/
def dispatch (h : HandlerMuxState) (network : Network) (port : Nat)
    (xudpResult muxResult processResult : Option GoErr) : List DispatchAction :=
  match h.mux with
  | none => directPath processResult
  | some manager =>
    if network = .udp ∧ port = 443 then
      if h.udp443 = "reject" then
        testActions (some (.other "XUDP rejected UDP/443 traffic"))
      else if h.udp443 = "skip" then
        directPath processResult
      else poolSelect manager h.xudp network xudpResult muxResult processResult
    else poolSelect manager h.xudp network xudpResult muxResult processResult

/-! ### HTTP proxy server config (`proxy/http/config.go`, `infra/conf/http.go`) -/

/-- http `ServerConfig` restricted to the fields the claims touch:
accounts, transparent flag, user level, auth type, keys. `none` models a
nil map. -/
structure HttpServerConfig where
  accounts : Option (List (String × String))
  allowTransparent : Bool
  userLevel : Nat
  authType : AuthType
  keys : Option (List (String × Int))
deriving Repr

/-- http `ServerConfig.ValidateKey`: nil map ⇒ false; otherwise the key
must exist and map to `ValidKey` (1). -/
def HttpServerConfig.validateKey (sc : HttpServerConfig) (key : String) : Bool :=
  match sc.keys with
  | none => false
  | some keys =>
    match assocLookup keys key with
    | none => false
    | some value => value == ValidKey

/-- `HTTPServerConfig`, the JSON-facing config: accounts, transparent
flag, user level, auth method string, optional key list. -/
structure HTTPServerConfig where
  accounts : List (String × String)
  transparent : Bool
  userLevel : Nat
  authMethod : String
  keys : Option (List String)
deriving Repr

/-- `HTTPServerConfig.Build`: map the auth method string to an AuthType
(unknown strings default to NO_AUTH); under "keyauth" populate the Keys
map assigning every listed key the value 1 (when the list is non-nil);
populate Accounts only when the account list is non-empty. -/
def HTTPServerConfig.build (c : HTTPServerConfig) : HttpServerConfig :=
  let (authType, keys) :=
    match c.authMethod with
    | "noauth" => (AuthType.noAuth, none)
    | "password" => (AuthType.password, none)
    | "keyauth" =>
      (AuthType.keyAuth,
       match c.keys with
       | some keyList => some (keyList.map (fun key => (key, ValidKey)))
       | none => none)
    | _ => (AuthType.noAuth, none)
  { accounts := if c.accounts.length > 0 then some c.accounts else none,
    allowTransparent := c.transparent,
    userLevel := c.userLevel,
    authType := authType,
    keys := keys }

/-! ### Concrete instances used in witnesses and counterexamples -/

/-- A NO_AUTH socks server configuration. -/
def noAuthConfig : SocksServerConfig :=
  { authType := .noAuth, accounts := none, keys := none,
    udpEnabled := false, address := none }

/-- A PASSWORD socks server configuration with one account
(username byte 117, password byte 112). -/
def passwordConfig : SocksServerConfig :=
  { authType := .password, accounts := some [([117], [112])], keys := none,
    udpEnabled := false, address := none }

/-- A KEYAUTH socks server configuration with one key (byte 107). -/
def keyAuthConfig : SocksServerConfig :=
  { authType := .keyAuth, accounts := none, keys := some [([107], 1)],
    udpEnabled := true, address := none }

/-- A server session over `passwordConfig`. -/
def passwordSession : ServerSession :=
  { config := passwordConfig, address := .ipv4 [9, 9, 9, 9], port := 1080,
    localAddress := .ipv4 [10, 0, 0, 1] }

/-- A server session over `keyAuthConfig`. -/
def keyAuthSession : ServerSession :=
  { config := keyAuthConfig, address := .ipv4 [9, 9, 9, 9], port := 1080,
    localAddress := .ipv4 [10, 0, 0, 1] }

/-- A client request carrying credentials (username 117, password 112). -/
def clientReqWithUser : ClientRequest :=
  { user := some { username := [117], password := [112] }, command := .tcp,
    address := .ipv4 [1, 2, 3, 4], port := 80 }

/-- A client request carrying no credentials. -/
def clientReqNoUser : ClientRequest :=
  { user := none, command := .tcp, address := .ipv4 [1, 2, 3, 4], port := 80 }

/-- An enabled mux client manager with the default strategy. -/
def defaultMuxManager : ClientManager :=
  { enabled := true,
    strategy := some { maxConcurrency := 8, maxConnection := 128 } }

/-- A handler state with an enabled mux pool and UDP/443 policy "reject". -/
def rejectHandlerState : HandlerMuxState :=
  { mux := some defaultMuxManager, xudp := none, udp443 := "reject" }

/-- A handler state with no mux pool configured. -/
def plainHandlerState : HandlerMuxState :=
  { mux := none, xudp := none, udp443 := "" }

/-- A multiplex config with default TCP concurrency and disabled xudp. -/
def muxTestConfig : MultiplexConfig :=
  { enabled := true, concurrency := 0, xudpConcurrency := -1,
    xudpProxyUDP443 := "reject" }

/-- A JSON-facing HTTP server config selecting key auth with two keys. -/
def keyauthHttpJson : HTTPServerConfig :=
  { accounts := [], transparent := false, userLevel := 0,
    authMethod := "keyauth", keys := some ["a", "b"] }

/-! ## Theorems -/

/-- The shared address codec round-trips: reading back what
`writeAddressPort` wrote yields the same address and port and leaves the
trailing bytes untouched. -/
theorem readAddressPort_writeAddressPort (addr : Address) (port : Nat)
    (rest : ByteStream) (ha : wfAddress addr) (hp : port < 65536) :
    readAddressPort (writeAddressPort addr port ++ rest) = some (addr, port, rest) := by
  have hport : port / 256 % 256 * 256 + port % 256 = port := by omega
  cases addr with
  | ipv4 bs =>
    simp only [wfAddress] at ha
    simp only [writeAddressPort, portBytes, List.cons_append, List.append_assoc,
      List.nil_append]
    simp only [readAddressPort, show ((1:Nat) = 1) = True from by decide, if_true]
    rw [readN, if_pos (by simp [List.length_append]; omega)]
    rw [show (4:Nat) = bs.length from ha.symm, List.take_left, List.drop_left]
    simp only [List.cons_append, portFromBytes, hport]
  | ipv6 bs =>
    simp only [wfAddress] at ha
    simp only [readAddressPort, writeAddressPort, portBytes, List.cons_append,
      List.append_assoc, List.nil_append,
      show ((4:Nat) = 1) = False from by decide,
      show ((4:Nat) = 4) = True from by decide, if_false, if_true]
    rw [readN, if_pos (by simp [List.length_append]; omega)]
    rw [show (16:Nat) = bs.length from ha.symm, List.take_left, List.drop_left]
    simp only [List.cons_append, portFromBytes, hport]
  | domain bs =>
    simp only [wfAddress] at ha
    simp only [readAddressPort, writeAddressPort, portBytes, List.cons_append,
      List.append_assoc, List.nil_append,
      show ((3:Nat) = 1) = False from by decide,
      show ((3:Nat) = 4) = False from by decide,
      show ((3:Nat) = 3) = True from by decide, if_false, if_true]
    rw [show bs.length % 256 = bs.length from Nat.mod_eq_of_lt (by omega)]
    rw [readN, if_pos (by simp [List.length_append])]
    rw [List.take_left, List.drop_left]
    simp only [List.cons_append, portFromBytes, hport]

/-- Every serialized address+port block is at least 3 bytes long. -/
theorem writeAddressPort_length_ge (addr : Address) (port : Nat) :
    3 ≤ (writeAddressPort addr port).length := by
  cases addr <;> simp [writeAddressPort, portBytes, List.length_append]

/-- C3: For every RequestHeader `h` whose address is an IPv4, IPv6, or
domain of at most 255 bytes and every payload `p` of length 0..65000,
`DecodeUDPPacket (EncodeUDPPacket h p)` succeeds and yields a
RequestHeader whose address and port equal `h`'s, with the remaining
bytes of the decoded packet byte-equal to `p`. -/
theorem C3_udp_packet_roundtrip (h : RequestHeader) (p : List Nat)
    (ha : wfAddress h.address) (hport : h.port < 65536)
    (hlen : p.length ≤ 65000) :
    DecodeUDPPacket (EncodeUDPPacket h p) =
      .ok ({ version := socks5Version, command := .udp,
             address := h.address, port := h.port, user := none }, p) := by
  have hw := writeAddressPort_length_ge h.address h.port
  simp only [EncodeUDPPacket, List.cons_append, List.nil_append]
  rw [DecodeUDPPacket]
  rw [if_neg (by simp [List.length_append]; omega)]
  simp only [ne_eq, not_true_eq_false, if_false, ite_false,
    reduceCtorEq, not_false_eq_true, if_true]
  rw [readAddressPort_writeAddressPort h.address h.port p ha hport]

/-- Witness for C3: the round trip evaluated at a concrete header
(IPv4 127.0.0.1 port 80) and payload. -/
theorem C3_udp_packet_roundtrip_witness :
    DecodeUDPPacket (EncodeUDPPacket
        { version := 5, command := .udp, address := .ipv4 [127, 0, 0, 1],
          port := 80, user := none } [1, 2, 3]) =
      .ok ({ version := socks5Version, command := .udp,
             address := .ipv4 [127, 0, 0, 1], port := 80, user := none },
           [1, 2, 3]) :=
  C3_udp_packet_roundtrip
    { version := 5, command := .udp, address := .ipv4 [127, 0, 0, 1],
      port := 80, user := none } [1, 2, 3]
    (by decide) (by decide) (by decide)

/-- C2: For every SOCKS4/4a handshake attempt when the server requires
password authentication, the handshake fails with an error, and before
the error is returned the peer is sent a SOCKS4 rejection reply whose
status byte (index 1 of the frame) is 91. -/
theorem C2_socks4_rejected_under_password_auth (cfg : SocksServerConfig)
    (cmd : Nat) (input : ByteStream) (hauth : cfg.authType = .password) :
    handshake4 cfg cmd input =
      ([writeSocks4Response socks4RequestRejected anyIP 0],
       .error "socks 4 is not allowed when auth is required.") ∧
    (writeSocks4Response socks4RequestRejected anyIP 0)[1]? = some 91 := by
  refine ⟨?_, by decide⟩
  rw [handshake4, if_pos hauth]

/-- Witness for C2: a password-auth config rejects a concrete SOCKS4
CONNECT attempt with status byte 91. -/
theorem C2_socks4_rejected_under_password_auth_witness :
    handshake4 { authType := .password, accounts := none, keys := none,
                 udpEnabled := false, address := none } 1 [0, 80, 1, 2, 3, 4, 0] =
      ([writeSocks4Response socks4RequestRejected anyIP 0],
       .error "socks 4 is not allowed when auth is required.") ∧
    (writeSocks4Response socks4RequestRejected anyIP 0)[1]? = some 91 :=
  C2_socks4_rejected_under_password_auth
    { authType := .password, accounts := none, keys := none,
      udpEnabled := false, address := none } 1 [0, 80, 1, 2, 3, 4, 0] rfl

/-- C9: When key-based authentication (KEYAUTH) is configured, a SOCKS4/4a
handshake is NOT rejected up front: `handshake4` under KEYAUTH behaves
exactly as under NO_AUTH (the immediate rejection fires only for
PASSWORD), and a concrete SOCKS4 CONNECT request completes
unauthenticated with the request-granted reply. -/
theorem C9_socks4_keyauth_not_rejected :
    (∀ (accounts : Option (List (List Nat × List Nat)))
       (keys : Option (List (List Nat × Int))) (udpEnabled : Bool)
       (address : Option Address) (cmd : Nat) (input : ByteStream),
       handshake4 { authType := .keyAuth, accounts := accounts, keys := keys,
                    udpEnabled := udpEnabled, address := address } cmd input =
       handshake4 { authType := .noAuth, accounts := accounts, keys := keys,
                    udpEnabled := udpEnabled, address := address } cmd input) ∧
    handshake4 { authType := .keyAuth, accounts := none,
                 keys := some [([107], 1)], udpEnabled := false,
                 address := none } 1 [0, 80, 1, 2, 3, 4, 0] =
      ([writeSocks4Response socks4RequestGranted anyIP 0],
       .ok ({ version := socks4Version, command := .tcp,
              address := .ipv4 [1, 2, 3, 4], port := 80, user := none }, [])) := by
  constructor
  · intro accounts keys udpEnabled address cmd input
    rw [handshake4, handshake4]
    simp only [show (AuthType.keyAuth = AuthType.password) = False from by decide,
      show (AuthType.noAuth = AuthType.password) = False from by decide, if_false]
  · decide

/-- C5: For every SOCKS5 method-negotiation, the server derives exactly
one expected auth method from its configuration (no-auth for NO_AUTH, the
password wire byte 0x02 for both PASSWORD and KEYAUTH); if that method is
absent from the client's candidate bytes the server writes the
no-acceptable-methods reply (0xFF) and fails, and otherwise its first
reply echoes the chosen method byte. -/
theorem C5_socks5_method_negotiation (cfg : SocksServerConfig) (nMethod : Nat)
    (input candidates rest : ByteStream)
    (hread : readN nMethod input = some (candidates, rest)) :
    ((cfg.authType = .noAuth → expectedAuthByte cfg = authNotRequired) ∧
     (cfg.authType = .password ∨ cfg.authType = .keyAuth →
        expectedAuthByte cfg = authPassword)) ∧
    (hasAuthMethod (expectedAuthByte cfg) candidates = false →
       auth5 cfg nMethod input =
         ([writeSocks5AuthenticationResponse socks5Version authNoMatchingMethod],
          .error "no matching auth method")) ∧
    (hasAuthMethod (expectedAuthByte cfg) candidates = true →
       (auth5 cfg nMethod input).1.head? =
         some (writeSocks5AuthenticationResponse socks5Version
                 (expectedAuthByte cfg))) := by
  refine ⟨⟨?_, ?_⟩, ?_, ?_⟩
  · intro h; simp [expectedAuthByte, h]
  · rintro (h | h) <;> simp [expectedAuthByte, h]
  · intro hno
    rw [auth5, hread]
    simp [hno]
  · intro hyes
    rw [auth5, hread]
    simp only [hyes, not_true_eq_false, if_false, ite_false, Bool.not_true]
    split <;> (try split) <;> (try split) <;> (try split) <;> simp

/-- Witness for C5: the negotiation theorem applied to a NO_AUTH config
and a client offering exactly the no-auth method. -/
theorem C5_socks5_method_negotiation_witness :
    ((noAuthConfig.authType = .noAuth →
        expectedAuthByte noAuthConfig = authNotRequired) ∧
     (noAuthConfig.authType = .password ∨ noAuthConfig.authType = .keyAuth →
        expectedAuthByte noAuthConfig = authPassword)) ∧
    (hasAuthMethod (expectedAuthByte noAuthConfig) [0] = false →
       auth5 noAuthConfig 1 [0] =
         ([writeSocks5AuthenticationResponse socks5Version authNoMatchingMethod],
          .error "no matching auth method")) ∧
    (hasAuthMethod (expectedAuthByte noAuthConfig) [0] = true →
       (auth5 noAuthConfig 1 [0]).1.head? =
         some (writeSocks5AuthenticationResponse socks5Version
                 (expectedAuthByte noAuthConfig))) :=
  C5_socks5_method_negotiation noAuthConfig 1 [0] [0] [] rfl

/-- A successful `finishRequest` propagates the user record it was given
into the produced RequestHeader unchanged. -/
theorem finishRequest_user_eq (s : ServerSession) (w w2 : List (List Nat))
    (user : Option MemoryUser) (command : RequestCommand)
    (rest rest2 : ByteStream) (hdr : RequestHeader)
    (h : finishRequest s w user command rest = (w2, .ok (hdr, rest2))) :
    hdr.user = user := by
  rw [finishRequest] at h
  split at h
  · simp at h
  · simp only [Prod.mk.injEq, Except.ok.injEq] at h
    obtain ⟨-, hh, -⟩ := h
    rw [← hh]

/-- C7 counterexample: a successful key authentication with an empty
username yields a RequestHeader carrying NO user record (`user = none`),
contradicting the claim that the authenticated identity (possibly the
empty string) is always attached. -/
theorem C7_counterexample :
    auth5 keyAuthConfig 1 [2, 1, 0, 1, 107, 5, 1, 0, 1, 127, 0, 0, 1, 0, 80] =
      ([[5, 2], [1, 0]], .ok ([], [5, 1, 0, 1, 127, 0, 0, 1, 0, 80])) ∧
    handshake5 keyAuthSession 1
        [2, 1, 0, 1, 107, 5, 1, 0, 1, 127, 0, 0, 1, 0, 80] =
      ([[5, 2], [1, 0], [5, 0, 0, 1, 9, 9, 9, 9, 4, 56]],
       .ok ({ version := 5, command := .tcp, address := .ipv4 [127, 0, 0, 1],
              port := 80, user := none }, [])) :=
  ⟨by decide, by decide⟩

/-- C7 (amended): for every SOCKS5 handshake whose auth sub-negotiation
succeeded with username `u`, the produced RequestHeader carries a user
record holding `u` exactly when `u` is non-empty; an empty username (as
key auth permits) yields no user record at all. -/
theorem C7_socks5_identity_carried (s : ServerSession) (nMethod : Nat)
    (input : ByteStream) (w w2 : List (List Nat)) (username : List Nat)
    (rest rest2 : ByteStream) (hdr : RequestHeader)
    (hauth : auth5 s.config nMethod input = (w, .ok (username, rest)))
    (hok : handshake5 s nMethod input = (w2, .ok (hdr, rest2))) :
    hdr.user = if username ≠ [] then some { email := username } else none := by
  rw [handshake5, hauth] at hok
  split at hok
  · simp_all
  · rename_i head3 rest3 heq
    rw [Prod.mk.injEq, Except.ok.injEq, Prod.mk.injEq] at heq
    obtain ⟨rfl, rfl, rfl⟩ := heq
    split at hok
    · simp at hok
    · dsimp only at hok
      split at hok
      · exact finishRequest_user_eq _ _ _ _ _ _ _ _ hok
      · split at hok
        · split at hok
          · simp at hok
          · exact finishRequest_user_eq _ _ _ _ _ _ _ _ hok
        · split at hok
          · simp at hok
          · simp at hok

/-- Witness for C7 (amended): a successful password authentication with
username byte 117 attaches exactly that identity. -/
theorem C7_socks5_identity_carried_witness :
    RequestHeader.user
      { version := 5, command := .tcp, address := .ipv4 [127, 0, 0, 1],
        port := 80, user := some { email := [117] } } =
      if ([117] : List Nat) ≠ [] then some { email := [117] } else none :=
  C7_socks5_identity_carried passwordSession 1
    [2, 1, 1, 117, 1, 112, 5, 1, 0, 1, 127, 0, 0, 1, 0, 80]
    [[5, 2], [1, 0]]
    [[5, 2], [1, 0], [5, 0, 0, 1, 9, 9, 9, 9, 4, 56]]
    [117] [5, 1, 0, 1, 127, 0, 0, 1, 0, 80] []
    { version := 5, command := .tcp, address := .ipv4 [127, 0, 0, 1],
      port := 80, user := some { email := [117] } }
    (by decide) (by decide)

/-- C8 counterexample: with credentials offered (method byte 2), a server
reply echoing method byte 0 makes `ClientHandshake` fail with the fixed
`authMethodNotSupported` error — an error that reports NO byte,
contradicting the claim that every such failure reports the offending
byte (the client also writes nothing further). -/
theorem C8_counterexample :
    ClientHandshake clientReqWithUser [5, 0] =
      ([clientNegotiationFrame clientReqWithUser],
       .error .authMethodNotSupported) ∧
    (0 : Nat) ≠ clientAuthByte clientReqWithUser ∧
    ClientErr.authMethodNotSupported.reportedByte = none :=
  ⟨by decide, by decide, by decide⟩

/-- C8 (amended): a version mismatch, a non-zero auth status and a
non-zero reply status each fail reporting the offending byte; a
mismatched auth-method byte fails with the fixed auth-method-not-supported
error that carries no byte, and in that case the client performs no
further writes (its only write is the method-negotiation frame). -/
theorem C8_client_handshake_failures :
    (∀ (req : ClientRequest) (v m : Nat) (rest : ByteStream),
       v ≠ socks5Version →
       ClientHandshake req (v :: m :: rest) =
         ([clientNegotiationFrame req], .error (.unexpectedVersion v)) ∧
       (ClientErr.unexpectedVersion v).reportedByte = some v) ∧
    (∀ (req : ClientRequest) (m : Nat) (rest : ByteStream),
       m ≠ clientAuthByte req →
       ClientHandshake req (socks5Version :: m :: rest) =
         ([clientNegotiationFrame req], .error .authMethodNotSupported) ∧
       ClientErr.authMethodNotSupported.reportedByte = none) ∧
    (∀ (req : ClientRequest) (account : SocksAccount) (x status : Nat)
       (rest : ByteStream), req.user = some account → status ≠ 0 →
       ClientHandshake req
           (socks5Version :: authPassword :: x :: status :: rest) =
         ([clientNegotiationFrame req, clientAuthFrame account],
          .error (.serverRejectsAccount status)) ∧
       (ClientErr.serverRejectsAccount status).reportedByte = some status) ∧
    (∀ (req : ClientRequest) (a status c : Nat) (rest : ByteStream),
       req.user = none → status ≠ 0 →
       ClientHandshake req
           (socks5Version :: authNotRequired :: a :: status :: c :: rest) =
         ([clientNegotiationFrame req, clientRequestFrame req],
          .error (.serverRejectsRequest status)) ∧
       (ClientErr.serverRejectsRequest status).reportedByte = some status) ∧
    (∀ (req : ClientRequest) (account : SocksAccount) (x a status c : Nat)
       (rest : ByteStream), req.user = some account → status ≠ 0 →
       ClientHandshake req
           (socks5Version :: authPassword :: x :: 0 :: a :: status :: c ::
             rest) =
         ([clientNegotiationFrame req, clientAuthFrame account,
           clientRequestFrame req],
          .error (.serverRejectsRequest status)) ∧
       (ClientErr.serverRejectsRequest status).reportedByte = some status) := by
  refine ⟨?_, ?_, ?_, ?_, ?_⟩
  · intro req v m rest hv
    refine ⟨?_, rfl⟩
    rw [ClientHandshake]
    dsimp only [readByte]
    rw [if_pos hv]
  · intro req m rest hm
    refine ⟨?_, rfl⟩
    rw [ClientHandshake]
    simp [readByte, socks5Version, hm]
  · intro req account x status rest hu hs
    refine ⟨?_, rfl⟩
    rw [ClientHandshake]
    simp [readByte, socks5Version, authPassword, clientAuthByte, hu, hs]
  · intro req a status c rest hu hs
    refine ⟨?_, rfl⟩
    rw [ClientHandshake]
    simp [readByte, socks5Version, authNotRequired, clientAuthByte, hu, hs,
      readN, ClientErr.reportedByte]
  · intro req account x a status c rest hu hs
    refine ⟨?_, rfl⟩
    rw [ClientHandshake]
    simp [readByte, socks5Version, authPassword, clientAuthByte, hu, hs, readN]

/-- Witness for C8 (amended): each failure mode exercised at a concrete
request and server reply. -/
theorem C8_client_handshake_failures_witness :
    (ClientHandshake clientReqNoUser [4, 0] =
       ([clientNegotiationFrame clientReqNoUser],
        .error (.unexpectedVersion 4)) ∧
     (ClientErr.unexpectedVersion 4).reportedByte = some 4) ∧
    (ClientHandshake clientReqWithUser [5, 0] =
       ([clientNegotiationFrame clientReqWithUser],
        .error .authMethodNotSupported) ∧
     ClientErr.authMethodNotSupported.reportedByte = none) ∧
    (ClientHandshake clientReqWithUser [5, 2, 1, 9] =
       ([clientNegotiationFrame clientReqWithUser,
         clientAuthFrame { username := [117], password := [112] }],
        .error (.serverRejectsAccount 9)) ∧
     (ClientErr.serverRejectsAccount 9).reportedByte = some 9) ∧
    (ClientHandshake clientReqNoUser [5, 0, 5, 3, 0] =
       ([clientNegotiationFrame clientReqNoUser,
         clientRequestFrame clientReqNoUser],
        .error (.serverRejectsRequest 3)) ∧
     (ClientErr.serverRejectsRequest 3).reportedByte = some 3) ∧
    (ClientHandshake clientReqWithUser [5, 2, 1, 0, 5, 3, 0] =
       ([clientNegotiationFrame clientReqWithUser,
         clientAuthFrame { username := [117], password := [112] },
         clientRequestFrame clientReqWithUser],
        .error (.serverRejectsRequest 3)) ∧
     (ClientErr.serverRejectsRequest 3).reportedByte = some 3) :=
  ⟨C8_client_handshake_failures.1 clientReqNoUser 4 0 [] (by decide),
   C8_client_handshake_failures.2.1 clientReqWithUser 0 [] (by decide),
   C8_client_handshake_failures.2.2.1 clientReqWithUser
     { username := [117], password := [112] } 1 9 [] (by decide) (by decide),
   C8_client_handshake_failures.2.2.2.1 clientReqNoUser 5 3 0 [] (by decide)
     (by decide),
   C8_client_handshake_failures.2.2.2.2 clientReqWithUser
     { username := [117], password := [112] } 1 5 3 0 [] (by decide)
     (by decide)⟩

/-- `proxyProcess` never occurs among the actions of the `test` closure. -/
theorem proxyProcess_notin_testActions (e : Option GoErr) :
    DispatchAction.proxyProcess ∉ testActions e := by
  rcases e with _ | e <;> simp [testActions]

/-- If pool selection ran the proxy's Process, it went down the direct
path: the trace is exactly `directPath`. -/
theorem poolSelect_direct (manager : ClientManager)
    (xudp : Option ClientManager) (network : Network)
    (xudpResult muxResult processResult : Option GoErr)
    (hreach : DispatchAction.proxyProcess ∈
      poolSelect manager xudp network xudpResult muxResult processResult) :
    poolSelect manager xudp network xudpResult muxResult processResult =
      directPath processResult := by
  rcases xudp with _ | xm
  · simp only [poolSelect, muxStep] at hreach ⊢
    by_cases hm : manager.enabled = true
    · rw [if_pos hm] at hreach
      exact absurd hreach (by
        simp only [List.mem_cons]
        rintro (h | h)
        · exact absurd h (by decide)
        · exact proxyProcess_notin_testActions _ h)
    · rw [if_neg hm]
  · simp only [poolSelect] at hreach ⊢
    by_cases hn : network = Network.udp
    · rw [if_pos hn] at hreach ⊢
      by_cases hx : xm.enabled = true
      · rw [if_neg (by simp [hx])] at hreach
        exact absurd hreach (by
          simp only [List.mem_cons]
          rintro (h | h)
          · exact absurd h (by decide)
          · exact proxyProcess_notin_testActions _ h)
      · rw [if_pos (by simp [hx])]
    · rw [if_neg hn] at hreach ⊢
      simp only [muxStep] at hreach ⊢
      by_cases hm : manager.enabled = true
      · rw [if_pos hm] at hreach
        exact absurd hreach (by
          simp only [List.mem_cons]
          rintro (h | h)
          · exact absurd h (by decide)
          · exact proxyProcess_notin_testActions _ h)
      · rw [if_neg hm]

/-- C1: With a mux pool configured, for every UDP/443 flow the configured
policy applies: "reject" returns immediately with exactly one error
submitted to the originator, an info-level log, and a writer interrupt —
no mux, xudp or direct dispatch; "skip" takes the direct path; any other
policy value proceeds to normal pool selection (behaving exactly as a
non-443 UDP flow). -/
theorem C1_udp443_policy (h : HandlerMuxState) (manager : ClientManager)
    (xudpResult muxResult processResult : Option GoErr)
    (hm : h.mux = some manager) :
    (h.udp443 = "reject" →
       dispatch h .udp 443 xudpResult muxResult processResult =
         [.submitOutboundError, .logInfo, .interruptWriter] ∧
       (dispatch h .udp 443 xudpResult muxResult processResult).count
           DispatchAction.submitOutboundError = 1 ∧
       DispatchAction.muxDispatch ∉
         dispatch h .udp 443 xudpResult muxResult processResult ∧
       DispatchAction.xudpDispatch ∉
         dispatch h .udp 443 xudpResult muxResult processResult ∧
       DispatchAction.proxyProcess ∉
         dispatch h .udp 443 xudpResult muxResult processResult) ∧
    (h.udp443 = "skip" →
       dispatch h .udp 443 xudpResult muxResult processResult =
         directPath processResult ∧
       DispatchAction.proxyProcess ∈
         dispatch h .udp 443 xudpResult muxResult processResult) ∧
    (h.udp443 ≠ "reject" → h.udp443 ≠ "skip" →
       dispatch h .udp 443 xudpResult muxResult processResult =
         dispatch h .udp 80 xudpResult muxResult processResult) := by
  refine ⟨?_, ?_, ?_⟩
  · intro hrj
    simp only [dispatch, hm, and_self, if_true]
    rw [if_pos hrj]
    exact ⟨rfl, by decide, by decide, by decide, by decide⟩
  · intro hsk
    simp only [dispatch, hm, and_self, if_true]
    rw [if_neg (by rw [hsk]; decide), if_pos hsk]
    refine ⟨rfl, ?_⟩
    rw [directPath]
    split <;> decide
  · intro h1 h2
    simp only [dispatch, hm, and_self, if_true]
    rw [if_neg h1, if_neg h2]
    rw [if_neg (by rintro ⟨-, hp⟩; exact absurd hp (by decide))]

/-- Witness for C1: the "reject" conclusion at a concrete handler state
with an enabled mux pool. -/
theorem C1_udp443_policy_witness :
    dispatch rejectHandlerState .udp 443 none none none =
      [.submitOutboundError, .logInfo, .interruptWriter] ∧
    (dispatch rejectHandlerState .udp 443 none none none).count
        DispatchAction.submitOutboundError = 1 ∧
    DispatchAction.muxDispatch ∉
      dispatch rejectHandlerState .udp 443 none none none ∧
    DispatchAction.xudpDispatch ∉
      dispatch rejectHandlerState .udp 443 none none none ∧
    DispatchAction.proxyProcess ∉
      dispatch rejectHandlerState .udp 443 none none none :=
  (C1_udp443_policy rejectHandlerState defaultMuxManager none none none
    rfl).1 rfl

/-- C4: with multiplex enabled, the TCP mux pool follows the tri-state
rule (negative ⇒ disabled pool, zero ⇒ enabled pool with the default
concurrency 8, positive ⇒ enabled pool with that concurrency, always with
max-connections 128), and independently the xudp pool follows the same
rule except that zero yields no pool at all (`none`, distinct from a
disabled pool). -/
theorem C4_mux_pool_tristate (config : MultiplexConfig)
    (henabled : config.enabled = true) :
    ((config.concurrency < 0 →
        (newHandlerMuxState (some config)).mux =
          some { enabled := false, strategy := none }) ∧
     (config.concurrency = 0 →
        (newHandlerMuxState (some config)).mux =
          some { enabled := true,
                 strategy := some { maxConcurrency := 8,
                                    maxConnection := 128 } }) ∧
     (0 < config.concurrency →
        (newHandlerMuxState (some config)).mux =
          some { enabled := true,
                 strategy := some { maxConcurrency := config.concurrency.toNat,
                                    maxConnection := 128 } })) ∧
    ((config.xudpConcurrency < 0 →
        (newHandlerMuxState (some config)).xudp =
          some { enabled := false, strategy := none }) ∧
     (config.xudpConcurrency = 0 →
        (newHandlerMuxState (some config)).xudp = none) ∧
     (0 < config.xudpConcurrency →
        (newHandlerMuxState (some config)).xudp =
          some { enabled := true,
                 strategy :=
                   some { maxConcurrency := config.xudpConcurrency.toNat,
                          maxConnection := 128 } })) ∧
    (newHandlerMuxState (some config)).udp443 = config.xudpProxyUDP443 := by
  simp only [newHandlerMuxState, henabled, if_true]
  refine ⟨⟨?_, ?_, ?_⟩, ⟨?_, ?_, ?_⟩, trivial⟩
  · intro hc
    have h0 : ¬ config.concurrency = 0 := by omega
    have h1 : ¬ config.concurrency > 0 := by omega
    simp [buildMuxPool, hc, h0, h1]
  · intro hc
    simp [buildMuxPool, hc]
  · intro hc
    have h0 : ¬ config.concurrency = 0 := by omega
    have h1 : ¬ config.concurrency < 0 := by omega
    simp [buildMuxPool, hc, h0, h1]
  · intro hc
    have h0 : ¬ config.xudpConcurrency = 0 := by omega
    have h1 : ¬ config.xudpConcurrency > 0 := by omega
    simp [buildXudpPool, hc, h0, h1]
  · intro hc
    simp [buildXudpPool, hc]
  · intro hc
    have h0 : ¬ config.xudpConcurrency = 0 := by omega
    have h1 : ¬ config.xudpConcurrency < 0 := by omega
    simp [buildXudpPool, hc, h0, h1]

/-- Witness for C4: zero TCP concurrency yields the default-8 enabled
pool and negative xudp concurrency yields a disabled xudp pool. -/
theorem C4_mux_pool_tristate_witness :
    (newHandlerMuxState (some muxTestConfig)).mux =
      some { enabled := true,
             strategy := some { maxConcurrency := 8, maxConnection := 128 } } ∧
    (newHandlerMuxState (some muxTestConfig)).xudp =
      some { enabled := false, strategy := none } :=
  ⟨(C4_mux_pool_tristate muxTestConfig rfl).1.2.1 rfl,
   (C4_mux_pool_tristate muxTestConfig rfl).2.1.1 (by decide)⟩

/-- C6: every Dispatch that reaches the direct (non-mux) path terminates
both link directions in order: the proxy's Process runs, then the writer
is closed gracefully on success/EOF/closed-pipe/cancel or interrupted
(after error submission and logging) on any other error, and the reader
is always interrupted last. -/
theorem C6_direct_path_termination (h : HandlerMuxState) (network : Network)
    (port : Nat) (xudpResult muxResult processResult : Option GoErr)
    (hreach : DispatchAction.proxyProcess ∈
      dispatch h network port xudpResult muxResult processResult) :
    dispatch h network port xudpResult muxResult processResult =
      (if isBenign processResult then
         [DispatchAction.proxyProcess, DispatchAction.closeWriter,
          DispatchAction.interruptReader]
       else
         [DispatchAction.proxyProcess, DispatchAction.submitOutboundError,
          DispatchAction.logInfo, DispatchAction.interruptWriter,
          DispatchAction.interruptReader]) ∧
    (dispatch h network port xudpResult muxResult processResult).getLast? =
      some DispatchAction.interruptReader := by
  have hd : dispatch h network port xudpResult muxResult processResult =
      directPath processResult := by
    rcases hmux : h.mux with _ | manager
    · simp only [dispatch, hmux]
    · simp only [dispatch, hmux] at hreach ⊢
      by_cases hc : network = Network.udp ∧ port = 443
      · rw [if_pos hc] at hreach ⊢
        by_cases hrj : h.udp443 = "reject"
        · rw [if_pos hrj] at hreach
          exact absurd hreach (proxyProcess_notin_testActions _)
        · rw [if_neg hrj] at hreach ⊢
          by_cases hsk : h.udp443 = "skip"
          · rw [if_pos hsk]
          · rw [if_neg hsk] at hreach ⊢
            exact poolSelect_direct _ _ _ _ _ _ hreach
      · rw [if_neg hc] at hreach ⊢
        exact poolSelect_direct _ _ _ _ _ _ hreach
  rw [hd, directPath]
  constructor
  · rfl
  · split <;> rfl

/-- Witness for C6: a muxless handler whose Process fails with a real
error interrupts the writer and then the reader. -/
theorem C6_direct_path_termination_witness :
    dispatch plainHandlerState .tcp 80 none none (some (.other "boom")) =
      (if isBenign (some (.other "boom")) then
         [DispatchAction.proxyProcess, DispatchAction.closeWriter,
          DispatchAction.interruptReader]
       else
         [DispatchAction.proxyProcess, DispatchAction.submitOutboundError,
          DispatchAction.logInfo, DispatchAction.interruptWriter,
          DispatchAction.interruptReader]) ∧
    (dispatch plainHandlerState .tcp 80 none none
        (some (.other "boom"))).getLast? =
      some DispatchAction.interruptReader :=
  C6_direct_path_termination plainHandlerState .tcp 80 none none
    (some (.other "boom")) (by decide)

/-- Looking up any member of a key list in the constant-value map built
from it yields that constant. -/
theorem assocLookup_map_const (l : List String) (k : String) (v : Int)
    (hm : k ∈ l) :
    assocLookup (l.map (fun key => (key, v))) k = some v := by
  induction l with
  | nil => cases hm
  | cons a l ih =>
    simp only [List.map_cons, assocLookup]
    by_cases hak : a = k
    · rw [if_pos hak]
    · rw [if_neg hak]
      rcases List.mem_cons.mp hm with h | h
      · exact absurd h.symm hak
      · exact ih h

/-- C10: `ValidateKey` returns true exactly when the Keys map is non-nil
and maps the key to the value 1 (`ValidKey`); and the config builder's
keyauth branch assigns every listed key the value 1, so every key listed
in a built keyauth config validates. -/
theorem C10_validate_key :
    ValidKey = 1 ∧
    (∀ (sc : HttpServerConfig) (key : String),
       sc.validateKey key = true ↔
         ∃ keys, sc.keys = some keys ∧ assocLookup keys key = some ValidKey) ∧
    (∀ (c : HTTPServerConfig) (keyList : List String) (k : String),
       c.authMethod = "keyauth" → c.keys = some keyList → k ∈ keyList →
       (HTTPServerConfig.build c).validateKey k = true) := by
  refine ⟨rfl, ?_, ?_⟩
  · intro sc key
    rw [HttpServerConfig.validateKey]
    rcases hk : sc.keys with _ | keys
    · simp
    · rcases ha : assocLookup keys key with _ | v
      · simp [ha]
      · simp [ha, beq_iff_eq]
  · intro c keyList k h1 h2 hmem
    rw [HTTPServerConfig.build, h1, h2]
    rw [HttpServerConfig.validateKey]
    simp [assocLookup_map_const keyList k ValidKey hmem]

/-- Witness for C10: key "a" of a built two-key keyauth config
validates. -/
theorem C10_validate_key_witness :
    (HTTPServerConfig.build keyauthHttpJson).validateKey "a" = true :=
  C10_validate_key.2.2 keyauthHttpJson ["a", "b"] "a" rfl rfl (by decide)

end XraySpec
